import Mathlib

/-!
Shallow embedding of the SolarZ API client (`src/SolarZ.py`).

The client is a single class holding mutable session state (base URL, a
header dictionary, and two plant identifiers), and twelve operations each
issuing one HTTP request.  We model parsed Python/JSON values with the
`Json` type (`Json.null` is Python `None`, which JSON `null` parses to),
the session state as an explicit record, and each operation as a pure
function from the pre-state, the call arguments and a mocked HTTP outcome
to the request it issued (if any), its Python return value, and the
post-state.  Transport exceptions are the `HttpOutcome.fault` constructor;
a body on which `response.json()` would raise is `body = none`.
-/

/-- A parsed JSON document, i.e. the Python value `response.json()` yields.
JSON `null` parses to Python `None`, so `Json.null` plays both roles.
JSON numbers are modelled as integers (the claims only exercise integer
plant ids). Objects are ordered key/value lists, as Python dicts are. -/
inductive Json where
  | null
  | bool (b : Bool)
  | num (n : Int)
  | str (s : String)
  | arr (elems : List Json)
  | obj (fields : List (String × Json))

/-- Python truthiness (`if not x:` / `if x:`) of a parsed JSON value:
`None`, `False`, `0`, `""`, `[]` and the empty dict are falsy. -/
def Json.truthy : Json → Bool
  | .null => false
  | .bool b => b
  | .num n => n != 0
  | .str s => s != ""
  | .arr elems => !elems.isEmpty
  | .obj fields => !fields.isEmpty

/-- First-match lookup in an ordered field list (Python dict keys are
unique, so this is exactly `d[k]` presence/lookup). -/
def lookupKey : List (String × Json) → String → Option Json
  | [], _ => none
  | (k, v) :: rest, key => if k = key then some v else lookupKey rest key

/-- Python `d.get(k)` on a dict: the value, or `None` when absent. -/
def getField (fields : List (String × Json)) (key : String) : Json :=
  (lookupKey fields key).getD .null

mutual
/-- Python `repr` of a parsed JSON value (used for elements nested inside
containers when `str` is applied to the container). -/
def pyRepr : Json → String
  | .null => "None"
  | .bool true => "True"
  | .bool false => "False"
  | .num n => toString n
  | .str s => "\x27" ++ s ++ "\x27"
  | .arr elems => "[" ++ pyReprList elems ++ "]"
  | .obj fields => "\x7b" ++ pyReprFields fields ++ "\x7d"

def pyReprList : List Json → String
  | [] => ""
  | [x] => pyRepr x
  | x :: y :: rest => pyRepr x ++ ", " ++ pyReprList (y :: rest)

def pyReprFields : List (String × Json) → String
  | [] => ""
  | [(k, v)] => "\x27" ++ k ++ "\x27: " ++ pyRepr v
  | (k, v) :: p :: rest =>
      "\x27" ++ k ++ "\x27: " ++ pyRepr v ++ ", " ++ pyReprFields (p :: rest)
end

/-- Python `str` of a parsed JSON value, as an f-string interpolation
(`f"Bearer \x7btoken\x7d"`) applies it: like `repr` except that a
top-level string is rendered without quotes. -/
def pyStr : Json → String
  | .str s => s
  | j => pyRepr j

/-- Python `str.lower()`, character by character (ASCII suffices for the
strings `"True"`/`"False"` the source lowers). -/
def pyLower (s : String) : String := ⟨s.data.map Char.toLower⟩

/-- The client's session state (`SolarZAPI.__init__`): base URL, the two
plant identifiers (Python `None` until set), and the header dictionary,
an ordered string-to-string map. -/
structure ClientState where
  base_url : String
  usina_id : Json
  usina_uuid : Json
  headers : List (String × String)

/-- Python dict assignment `h[k] = v` on the header dict: update the
existing entry in place, else append a new one (insertion order kept). -/
def setHeader : List (String × String) → String → String → List (String × String)
  | [], k, v => [(k, v)]
  | (k0, v0) :: rest, k, v =>
      if k0 = k then (k, v) :: rest else (k0, v0) :: setHeader rest k v

/-- Lookup in the header dict. -/
def dictGet : List (String × String) → String → Option String
  | [], _ => none
  | (k0, v0) :: rest, k => if k0 = k then some v0 else dictGet rest k

/-- The freshly constructed client (`SolarZAPI.__init__`). -/
def initState : ClientState where
  base_url := "https://app.solarz.com.br"
  usina_id := Json.null
  usina_uuid := Json.null
  headers :=
    [("Accept", "application/json"),
     ("Content-Type", "application/json"),
     ("User-Agent", "Mozilla/5.0 (Windows NT 10.0; Win64; x64) AppleWebKit/537.36 (KHTML, like Gecko) Chrome/128.0.0.0 Safari/537.36")]

/-- The outcome of one HTTP call, as the operation observes it: either a
response with a status code, a parsed JSON body (`none` when
`response.json()` would raise on the raw bytes), and the raw text, or a
`fault` (an exception raised by the transport layer itself). -/
inductive HttpOutcome where
  | response (status : Nat) (body : Option Json) (text : String)
  | fault

/-- The single HTTP request an operation issues: method, full URL, the
header set attached to it, query parameters, and JSON body if any. -/
structure Request where
  method : String
  url : String
  headers : List (String × String)
  params : List (String × Json)
  body : Option Json

/-- Everything observable about one operation call: the request it issued
(`none` when a precondition failed before any network activity), the
Python value it returned (`Json.null` is Python `None`, `Json.bool true`
is `True`), and the session state afterwards. -/
structure OpRun where
  request : Option Request
  result : Json
  state : ClientState

/-- The response handling shared verbatim by every plain GET operation:
200 returns the parsed body, any other status (and any exception,
including a body `response.json()` chokes on) returns `None`; the session
state is never touched. -/
def finishSimple (req : Request) (st : ClientState) (out : HttpOutcome) : OpRun :=
  match out with
  | .fault => ⟨some req, .null, st⟩
  | .response status body _text =>
      if status = 200 then
        match body with
        | some j => ⟨some req, j, st⟩
        | none => ⟨some req, .null, st⟩
      else ⟨some req, .null, st⟩

/-- `SolarZAPI.authenticate`.  Parses the body unconditionally, then on
200 with a `token` key stores `Authorization: Bearer <token>` in the
session headers and returns `True`; every other path (200 without the
key, any non-200 — with or without an `error` field the code only prints
differently — transport fault, unparseable body, non-dict body) returns
`None` and leaves the state alone. -/
def authenticate (st : ClientState) (username password : String)
    (out : HttpOutcome) : OpRun :=
  let req : Request :=
    { method := "POST"
      url := st.base_url ++ "/cliente/authenticate"
      headers := st.headers
      params := []
      body := some (.obj [("username", .str username), ("password", .str password)]) }
  match out with
  | .fault => ⟨some req, .null, st⟩
  | .response status body _text =>
      match body with
      | none => ⟨some req, .null, st⟩
      | some data =>
          if status = 200 then
            match data with
            | .obj fs =>
                if (lookupKey fs "token").isSome then
                  let bearer := "Bearer " ++ pyStr (getField fs "token")
                  ⟨some req, .bool true,
                   { st with headers := setHeader st.headers "Authorization" bearer }⟩
                else ⟨some req, .null, st⟩
            | _ => ⟨some req, .null, st⟩
          else ⟨some req, .null, st⟩

/-- `SolarZAPI.get_client_context`.  On 200 with a dict body: reads
`usinas` (default `[]`); when truthy and a list whose first entry is a
dict, stores that entry's `id`/`uuid` (each `None` when missing) and
returns the full payload; when falsy, returns the payload untouched.
A truthy non-list `usinas`, a non-dict first entry, or a non-dict body
raises inside the `try` (indexing/`.get` on the wrong type) and so
returns `None` with the state unchanged, like every non-200 or fault. -/
def get_client_context (st : ClientState) (out : HttpOutcome) : OpRun :=
  let req : Request :=
    { method := "GET"
      url := st.base_url ++ "/cliente/context"
      headers := st.headers
      params := []
      body := none }
  match out with
  | .fault => ⟨some req, .null, st⟩
  | .response status body _text =>
      if status = 200 then
        match body with
        | none => ⟨some req, .null, st⟩
        | some ctx =>
            match ctx with
            | .obj fs =>
                let usinas := (lookupKey fs "usinas").getD (.arr [])
                if usinas.truthy then
                  match usinas with
                  | .arr (first :: _) =>
                      match first with
                      | .obj efs =>
                          ⟨some req, ctx,
                           { st with usina_id := getField efs "id"
                                     usina_uuid := getField efs "uuid" }⟩
                      | _ => ⟨some req, .null, st⟩
                  | _ => ⟨some req, .null, st⟩
                else ⟨some req, ctx, st⟩
            | _ => ⟨some req, .null, st⟩
      else ⟨some req, .null, st⟩

/-- `SolarZAPI.get_last_status`: guarded by `if not self.usina_id` (Python
truthiness), then a GET with the id as query parameter. -/
def get_last_status (st : ClientState) (out : HttpOutcome) : OpRun :=
  if !st.usina_id.truthy then ⟨none, .null, st⟩
  else
    finishSimple
      { method := "GET"
        url := st.base_url ++ "/shareable/currently/usina"
        headers := st.headers
        params := [("id", st.usina_id)]
        body := none } st out

/-- `SolarZAPI.get_last_report`: guarded by `if not self.usina_uuid`, the
UUID interpolated into the URL path. -/
def get_last_report (st : ClientState) (out : HttpOutcome) : OpRun :=
  if !st.usina_uuid.truthy then ⟨none, .null, st⟩
  else
    finishSimple
      { method := "GET"
        url := st.base_url ++ "/api-sz/app/cliente/plant/" ++ pyStr st.usina_uuid ++ "/lastReport"
        headers := st.headers
        params := []
        body := none } st out

/-- `SolarZAPI.get_economized`: unguarded GET. -/
def get_economized (st : ClientState) (out : HttpOutcome) : OpRun :=
  finishSimple
    { method := "GET"
      url := st.base_url ++ "/api-sz/app/cliente/home/economizados"
      headers := st.headers
      params := []
      body := none } st out

/-- `SolarZAPI.get_generation_day`: guarded by `if not self.usina_id`;
the boolean flag is serialized with `str(unite_portals).lower()`. -/
def get_generation_day (st : ClientState) (date : String)
    (unite_portals : Bool) (out : HttpOutcome) : OpRun :=
  if !st.usina_id.truthy then ⟨none, .null, st⟩
  else
    finishSimple
      { method := "GET"
        url := st.base_url ++ "/api-sz/generation/day"
        headers := st.headers
        params :=
          [("usinaId", st.usina_id),
           ("day", .str date),
           ("unitePortals", .str (pyLower (pyStr (.bool unite_portals))))]
        body := none } st out

/-- `SolarZAPI.get_generation_period`: guarded by `if not self.usina_id`;
both boolean flags serialized with `str(flag).lower()`, the granularity
token forwarded unvalidated. -/
def get_generation_period (st : ClientState) (start_date end_date period : String)
    (unite_months unite_portals : Bool) (out : HttpOutcome) : OpRun :=
  if !st.usina_id.truthy then ⟨none, .null, st⟩
  else
    finishSimple
      { method := "GET"
        url := st.base_url ++ "/api-sz/generation/period"
        headers := st.headers
        params :=
          [("usinaId", st.usina_id),
           ("start", .str start_date),
           ("end", .str end_date),
           ("uniteMonths", .str (pyLower (pyStr (.bool unite_months)))),
           ("unitePortals", .str (pyLower (pyStr (.bool unite_portals)))),
           ("period", .str period)]
        body := none } st out

/-- `SolarZAPI.get_unidade_sums`: unguarded GET. -/
def get_unidade_sums (st : ClientState) (out : HttpOutcome) : OpRun :=
  finishSimple
    { method := "GET"
      url := st.base_url ++ "/api-sz/app/cliente/unidades/sums"
      headers := st.headers
      params := []
      body := none } st out

/-- `SolarZAPI.get_unidade_credit`: unguarded GET. -/
def get_unidade_credit (st : ClientState) (out : HttpOutcome) : OpRun :=
  finishSimple
    { method := "GET"
      url := st.base_url ++ "/api-sz/app/cliente/unidades/credit"
      headers := st.headers
      params := []
      body := none } st out

/-- `SolarZAPI.get_unidade_by_period`: unguarded GET with start/end
query parameters, dates passed through unmodified. -/
def get_unidade_by_period (st : ClientState) (start_date end_date : String)
    (out : HttpOutcome) : OpRun :=
  finishSimple
    { method := "GET"
      url := st.base_url ++ "/api-sz/app/cliente/unidades"
      headers := st.headers
      params := [("start", .str start_date), ("end", .str end_date)]
      body := none } st out

/-- `SolarZAPI.get_notifications`: unguarded GET, the page number
interpolated into the URL path. -/
def get_notifications (st : ClientState) (page : Int) (out : HttpOutcome) : OpRun :=
  finishSimple
    { method := "GET"
      url := st.base_url ++ "/cliente/notifications/page/" ++ toString page
      headers := st.headers
      params := []
      body := none } st out

/-- `SolarZAPI.mark_all_notifications_seen`: POST with an empty JSON
body; returns `True` on 200 (the body is never parsed), `None` on any
other status or fault; never touches the state. -/
def mark_all_notifications_seen (st : ClientState) (out : HttpOutcome) : OpRun :=
  let req : Request :=
    { method := "POST"
      url := st.base_url ++ "/cliente/notifications/seenAll"
      headers := st.headers
      params := []
      body := some (.obj []) }
  match out with
  | .fault => ⟨some req, .null, st⟩
  | .response status _body _text =>
      if status = 200 then ⟨some req, .bool true, st⟩
      else ⟨some req, .null, st⟩

/-- One call to one client operation: the operation, its arguments, and
the mocked outcome of the single HTTP request it gets to issue. -/
inductive OpCall where
  | authCall (username password : String) (out : HttpOutcome)
  | contextCall (out : HttpOutcome)
  | lastStatusCall (out : HttpOutcome)
  | lastReportCall (out : HttpOutcome)
  | economizedCall (out : HttpOutcome)
  | generationDayCall (date : String) (unite_portals : Bool) (out : HttpOutcome)
  | generationPeriodCall (start_date end_date period : String)
      (unite_months unite_portals : Bool) (out : HttpOutcome)
  | unidadeSumsCall (out : HttpOutcome)
  | unidadeCreditCall (out : HttpOutcome)
  | unidadeByPeriodCall (start_date end_date : String) (out : HttpOutcome)
  | notificationsCall (page : Int) (out : HttpOutcome)
  | markSeenCall (out : HttpOutcome)

/-- Dispatch a call to the operation it names. -/
def runOp (st : ClientState) : OpCall → OpRun
  | .authCall u p out => authenticate st u p out
  | .contextCall out => get_client_context st out
  | .lastStatusCall out => get_last_status st out
  | .lastReportCall out => get_last_report st out
  | .economizedCall out => get_economized st out
  | .generationDayCall d up out => get_generation_day st d up out
  | .generationPeriodCall s e per um up out => get_generation_period st s e per um up out
  | .unidadeSumsCall out => get_unidade_sums st out
  | .unidadeCreditCall out => get_unidade_credit st out
  | .unidadeByPeriodCall s e out => get_unidade_by_period st s e out
  | .notificationsCall pg out => get_notifications st pg out
  | .markSeenCall out => mark_all_notifications_seen st out

/-- The session state after a sequence of calls on the same instance. -/
def runTrace (st : ClientState) : List OpCall → ClientState
  | [] => st
  | c :: rest => runTrace (runOp st c).state rest

/-- Whether the call is to `authenticate`. -/
def OpCall.isAuth : OpCall → Bool
  | .authCall _ _ _ => true
  | _ => false

/-- Whether the call is to `get_client_context`. -/
def OpCall.isContext : OpCall → Bool
  | .contextCall _ => true
  | _ => false

/-- Whether the call is to `mark_all_notifications_seen` (the one
operation that never parses a response body). -/
def OpCall.isMarkSeen : OpCall → Bool
  | .markSeenCall _ => true
  | _ => false

/-- The mocked HTTP outcome embedded in a call. -/
def OpCall.outcome : OpCall → HttpOutcome
  | .authCall _ _ out => out
  | .contextCall out => out
  | .lastStatusCall out => out
  | .lastReportCall out => out
  | .economizedCall out => out
  | .generationDayCall _ _ out => out
  | .generationPeriodCall _ _ _ _ _ out => out
  | .unidadeSumsCall out => out
  | .unidadeCreditCall out => out
  | .unidadeByPeriodCall _ _ out => out
  | .notificationsCall _ out => out
  | .markSeenCall out => out

/-- The one outcome shape on which `authenticate` succeeds: HTTP 200 with
a parseable dict body carrying a `token` key.  Every other outcome takes
a failure path. -/
def authSuccessOutcome : HttpOutcome → Bool
  | .fault => false
  | .response status body _ =>
      status == 200 &&
        (match body with
         | some (.obj fs) => (lookupKey fs "token").isSome
         | _ => false)

/-- Outcomes on which the shared response handling necessarily yields
`None`: a transport fault, a non-200 status, or a body `response.json()`
raises on. -/
def nullOutcome : HttpOutcome → Bool
  | .fault => true
  | .response status body _ => !(status == 200) || body.isNone

theorem finishSimple_state (req : Request) (st : ClientState) (out : HttpOutcome) :
    (finishSimple req st out).state = st := by
  cases out with
  | fault => rfl
  | response status body text =>
      simp only [finishSimple]
      split
      · cases body <;> rfl
      · rfl

theorem finishSimple_request (req : Request) (st : ClientState) (out : HttpOutcome) :
    (finishSimple req st out).request = some req := by
  cases out with
  | fault => rfl
  | response status body text =>
      simp only [finishSimple]
      split
      · cases body <;> rfl
      · rfl

theorem finishSimple_fault (req : Request) (st : ClientState) :
    (finishSimple req st .fault).result = .null := rfl

theorem finishSimple_non200 (req : Request) (st : ClientState)
    (status : Nat) (body : Option Json) (text : String) (h : status ≠ 200) :
    (finishSimple req st (.response status body text)).result = .null := by
  simp only [finishSimple, if_neg h]

theorem finishSimple_200 (req : Request) (st : ClientState)
    (j : Json) (text : String) :
    (finishSimple req st (.response 200 (some j) text)).result = j := rfl

theorem finishSimple_malformed (req : Request) (st : ClientState)
    (status : Nat) (text : String) :
    (finishSimple req st (.response status none text)).result = .null := by
  simp only [finishSimple]
  split <;> rfl

theorem dictGet_setHeader (hs : List (String × String)) (k v : String) :
    dictGet (setHeader hs k v) k = some v := by
  induction hs with
  | nil => simp [setHeader, dictGet]
  | cons hd tl ih =>
      obtain ⟨k0, v0⟩ := hd
      by_cases h : k0 = k
      · simp [setHeader, h, dictGet]
      · simp [setHeader, h, dictGet, ih]

theorem authenticate_frame (st : ClientState) (u p : String) (out : HttpOutcome) :
    (authenticate st u p out).state.base_url = st.base_url ∧
    (authenticate st u p out).state.usina_id = st.usina_id ∧
    (authenticate st u p out).state.usina_uuid = st.usina_uuid := by
  cases out with
  | fault => exact ⟨rfl, rfl, rfl⟩
  | response status body text =>
      cases body with
      | none => exact ⟨rfl, rfl, rfl⟩
      | some data =>
          by_cases h : status = 200
          · subst h
            cases data <;> try exact ⟨rfl, rfl, rfl⟩
            rename_i fs
            by_cases ht : (lookupKey fs "token").isSome
            · simp [authenticate, ht]
            · simp [authenticate, ht]
          · simp [authenticate, h]

theorem get_client_context_frame (st : ClientState) (out : HttpOutcome) :
    (get_client_context st out).state.base_url = st.base_url ∧
    (get_client_context st out).state.headers = st.headers := by
  cases out with
  | fault => exact ⟨rfl, rfl⟩
  | response status body text =>
      by_cases h : status = 200
      · subst h
        cases body with
        | none => exact ⟨rfl, rfl⟩
        | some ctx =>
            cases ctx <;> try exact ⟨rfl, rfl⟩
            rename_i fs
            by_cases hu : ((lookupKey fs "usinas").getD (.arr [])).truthy
            · simp only [get_client_context, if_pos rfl, hu, if_true]
              split <;> try exact ⟨rfl, rfl⟩
              split <;> exact ⟨rfl, rfl⟩
            · simp [get_client_context, hu]
      · simp [get_client_context, h]

theorem get_last_status_state (st : ClientState) (out : HttpOutcome) :
    (get_last_status st out).state = st := by
  simp only [get_last_status]
  split
  · rfl
  · exact finishSimple_state ..

theorem get_last_report_state (st : ClientState) (out : HttpOutcome) :
    (get_last_report st out).state = st := by
  simp only [get_last_report]
  split
  · rfl
  · exact finishSimple_state ..

theorem get_economized_state (st : ClientState) (out : HttpOutcome) :
    (get_economized st out).state = st := finishSimple_state ..

theorem get_generation_day_state (st : ClientState) (d : String) (up : Bool)
    (out : HttpOutcome) : (get_generation_day st d up out).state = st := by
  simp only [get_generation_day]
  split
  · rfl
  · exact finishSimple_state ..

theorem get_generation_period_state (st : ClientState) (s e per : String)
    (um up : Bool) (out : HttpOutcome) :
    (get_generation_period st s e per um up out).state = st := by
  simp only [get_generation_period]
  split
  · rfl
  · exact finishSimple_state ..

theorem get_unidade_sums_state (st : ClientState) (out : HttpOutcome) :
    (get_unidade_sums st out).state = st := finishSimple_state ..

theorem get_unidade_credit_state (st : ClientState) (out : HttpOutcome) :
    (get_unidade_credit st out).state = st := finishSimple_state ..

theorem get_unidade_by_period_state (st : ClientState) (s e : String)
    (out : HttpOutcome) : (get_unidade_by_period st s e out).state = st :=
  finishSimple_state ..

theorem get_notifications_state (st : ClientState) (pg : Int)
    (out : HttpOutcome) : (get_notifications st pg out).state = st :=
  finishSimple_state ..

theorem mark_all_notifications_seen_state (st : ClientState) (out : HttpOutcome) :
    (mark_all_notifications_seen st out).state = st := by
  cases out with
  | fault => rfl
  | response status body text =>
      simp only [mark_all_notifications_seen]
      split <;> rfl

/-- Every operation except `authenticate` and `get_client_context` leaves
the whole session state untouched. -/
theorem runOp_state_frame (st : ClientState) (c : OpCall)
    (ha : c.isAuth = false) (hc : c.isContext = false) :
    (runOp st c).state = st := by
  cases c with
  | authCall u p out => simp [OpCall.isAuth] at ha
  | contextCall out => simp [OpCall.isContext] at hc
  | lastStatusCall out => exact get_last_status_state ..
  | lastReportCall out => exact get_last_report_state ..
  | economizedCall out => exact get_economized_state ..
  | generationDayCall d up out => exact get_generation_day_state ..
  | generationPeriodCall s e per um up out => exact get_generation_period_state ..
  | unidadeSumsCall out => exact get_unidade_sums_state ..
  | unidadeCreditCall out => exact get_unidade_credit_state ..
  | unidadeByPeriodCall s e out => exact get_unidade_by_period_state ..
  | notificationsCall pg out => exact get_notifications_state ..
  | markSeenCall out => exact mark_all_notifications_seen_state ..

/-- No operation except `authenticate` changes the header set. -/
theorem runOp_headers (st : ClientState) (c : OpCall) (ha : c.isAuth = false) :
    (runOp st c).state.headers = st.headers := by
  cases c with
  | contextCall out => exact (get_client_context_frame st out).2
  | authCall u p out => simp [OpCall.isAuth] at ha
  | _ => rw [runOp_state_frame] <;> rfl

/-- Header preservation along any authenticate-free call sequence. -/
theorem runTrace_headers (calls : List OpCall) (st : ClientState)
    (h : ∀ c ∈ calls, c.isAuth = false) :
    (runTrace st calls).headers = st.headers := by
  induction calls generalizing st with
  | nil => rfl
  | cons c rest ih =>
      have hc := h c (List.mem_cons_self ..)
      have hrest : ∀ x ∈ rest, x.isAuth = false := fun x hx => h x (List.mem_cons_of_mem _ hx)
      rw [runTrace, ih _ hrest, runOp_headers st c hc]

theorem authenticate_request (st : ClientState) (u p : String) (out : HttpOutcome) :
    (authenticate st u p out).request =
      some ⟨"POST", st.base_url ++ "/cliente/authenticate", st.headers, [],
            some (.obj [("username", .str u), ("password", .str p)])⟩ := by
  cases out with
  | fault => rfl
  | response status body text =>
      cases body with
      | none => rfl
      | some data =>
          by_cases hs : status = 200
          · subst hs
            cases data <;> try rfl
            rename_i fs
            by_cases ht : (lookupKey fs "token").isSome
            · simp [authenticate, ht]
            · simp [authenticate, ht]
          · simp [authenticate, hs]

theorem get_client_context_request (st : ClientState) (out : HttpOutcome) :
    (get_client_context st out).request =
      some ⟨"GET", st.base_url ++ "/cliente/context", st.headers, [], none⟩ := by
  cases out with
  | fault => rfl
  | response status body text =>
      by_cases hs : status = 200
      · subst hs
        cases body with
        | none => rfl
        | some ctx =>
            cases ctx <;> try rfl
            rename_i fs
            by_cases hu : ((lookupKey fs "usinas").getD (.arr [])).truthy
            · simp only [get_client_context, if_pos rfl, hu, if_true]
              split <;> try rfl
              split <;> rfl
            · simp [get_client_context, hu]
      · simp [get_client_context, hs]

theorem mark_all_notifications_seen_request (st : ClientState) (out : HttpOutcome) :
    (mark_all_notifications_seen st out).request =
      some ⟨"POST", st.base_url ++ "/cliente/notifications/seenAll", st.headers, [],
            some (.obj [])⟩ := by
  cases out with
  | fault => rfl
  | response status body text =>
      simp only [mark_all_notifications_seen]
      split <;> rfl

theorem get_last_status_noreq (st : ClientState) (out : HttpOutcome)
    (h : st.usina_id.truthy = false) :
    get_last_status st out = ⟨none, .null, st⟩ := by
  simp [get_last_status, h]

theorem get_last_status_request (st : ClientState) (out : HttpOutcome)
    (h : st.usina_id.truthy = true) :
    (get_last_status st out).request =
      some ⟨"GET", st.base_url ++ "/shareable/currently/usina", st.headers,
            [("id", st.usina_id)], none⟩ := by
  simp [get_last_status, h, finishSimple_request]

theorem get_last_report_noreq (st : ClientState) (out : HttpOutcome)
    (h : st.usina_uuid.truthy = false) :
    get_last_report st out = ⟨none, .null, st⟩ := by
  simp [get_last_report, h]

theorem get_last_report_request (st : ClientState) (out : HttpOutcome)
    (h : st.usina_uuid.truthy = true) :
    (get_last_report st out).request =
      some ⟨"GET", st.base_url ++ "/api-sz/app/cliente/plant/" ++ pyStr st.usina_uuid ++ "/lastReport",
            st.headers, [], none⟩ := by
  simp [get_last_report, h, finishSimple_request]

theorem get_economized_request (st : ClientState) (out : HttpOutcome) :
    (get_economized st out).request =
      some ⟨"GET", st.base_url ++ "/api-sz/app/cliente/home/economizados",
            st.headers, [], none⟩ :=
  finishSimple_request ..

theorem get_generation_day_noreq (st : ClientState) (d : String) (up : Bool)
    (out : HttpOutcome) (h : st.usina_id.truthy = false) :
    get_generation_day st d up out = ⟨none, .null, st⟩ := by
  simp [get_generation_day, h]

theorem get_generation_day_request (st : ClientState) (d : String) (up : Bool)
    (out : HttpOutcome) (h : st.usina_id.truthy = true) :
    (get_generation_day st d up out).request =
      some ⟨"GET", st.base_url ++ "/api-sz/generation/day", st.headers,
            [("usinaId", st.usina_id), ("day", .str d),
             ("unitePortals", .str (pyLower (pyStr (.bool up))))], none⟩ := by
  simp [get_generation_day, h, finishSimple_request]

theorem get_generation_period_noreq (st : ClientState) (s e per : String)
    (um up : Bool) (out : HttpOutcome) (h : st.usina_id.truthy = false) :
    get_generation_period st s e per um up out = ⟨none, .null, st⟩ := by
  simp [get_generation_period, h]

theorem get_generation_period_request (st : ClientState) (s e per : String)
    (um up : Bool) (out : HttpOutcome) (h : st.usina_id.truthy = true) :
    (get_generation_period st s e per um up out).request =
      some ⟨"GET", st.base_url ++ "/api-sz/generation/period", st.headers,
            [("usinaId", st.usina_id), ("start", .str s), ("end", .str e),
             ("uniteMonths", .str (pyLower (pyStr (.bool um)))),
             ("unitePortals", .str (pyLower (pyStr (.bool up)))),
             ("period", .str per)], none⟩ := by
  simp [get_generation_period, h, finishSimple_request]

theorem get_unidade_sums_request (st : ClientState) (out : HttpOutcome) :
    (get_unidade_sums st out).request =
      some ⟨"GET", st.base_url ++ "/api-sz/app/cliente/unidades/sums",
            st.headers, [], none⟩ :=
  finishSimple_request ..

theorem get_unidade_credit_request (st : ClientState) (out : HttpOutcome) :
    (get_unidade_credit st out).request =
      some ⟨"GET", st.base_url ++ "/api-sz/app/cliente/unidades/credit",
            st.headers, [], none⟩ :=
  finishSimple_request ..

theorem get_unidade_by_period_request (st : ClientState) (s e : String)
    (out : HttpOutcome) :
    (get_unidade_by_period st s e out).request =
      some ⟨"GET", st.base_url ++ "/api-sz/app/cliente/unidades", st.headers,
            [("start", .str s), ("end", .str e)], none⟩ :=
  finishSimple_request ..

theorem get_notifications_request (st : ClientState) (pg : Int)
    (out : HttpOutcome) :
    (get_notifications st pg out).request =
      some ⟨"GET", st.base_url ++ "/cliente/notifications/page/" ++ toString pg,
            st.headers, [], none⟩ :=
  finishSimple_request ..

/-- Every request any operation issues carries exactly the session's
current header set (the shallow copy the source attaches). -/
theorem runOp_request_headers (st : ClientState) (c : OpCall) (rq : Request)
    (h : (runOp st c).request = some rq) : rq.headers = st.headers := by
  cases c with
  | authCall u p out =>
      rw [runOp, authenticate_request] at h
      cases h
      rfl
  | contextCall out =>
      rw [runOp, get_client_context_request] at h
      cases h
      rfl
  | lastStatusCall out =>
      rw [runOp] at h
      by_cases hg : st.usina_id.truthy
      · rw [get_last_status_request st out hg] at h
        cases h
        rfl
      · rw [get_last_status_noreq st out (by simpa using hg)] at h
        cases h
  | lastReportCall out =>
      rw [runOp] at h
      by_cases hg : st.usina_uuid.truthy
      · rw [get_last_report_request st out hg] at h
        cases h
        rfl
      · rw [get_last_report_noreq st out (by simpa using hg)] at h
        cases h
  | economizedCall out =>
      rw [runOp, get_economized_request] at h
      cases h
      rfl
  | generationDayCall d up out =>
      rw [runOp] at h
      by_cases hg : st.usina_id.truthy
      · rw [get_generation_day_request st d up out hg] at h
        cases h
        rfl
      · rw [get_generation_day_noreq st d up out (by simpa using hg)] at h
        cases h
  | generationPeriodCall s e per um up out =>
      rw [runOp] at h
      by_cases hg : st.usina_id.truthy
      · rw [get_generation_period_request st s e per um up out hg] at h
        cases h
        rfl
      · rw [get_generation_period_noreq st s e per um up out (by simpa using hg)] at h
        cases h
  | unidadeSumsCall out =>
      rw [runOp, get_unidade_sums_request] at h
      cases h
      rfl
  | unidadeCreditCall out =>
      rw [runOp, get_unidade_credit_request] at h
      cases h
      rfl
  | unidadeByPeriodCall s e out =>
      rw [runOp, get_unidade_by_period_request] at h
      cases h
      rfl
  | notificationsCall pg out =>
      rw [runOp, get_notifications_request] at h
      cases h
      rfl
  | markSeenCall out =>
      rw [runOp, mark_all_notifications_seen_request] at h
      cases h
      rfl

theorem authenticate_fail (st : ClientState) (u p : String) (out : HttpOutcome)
    (h : authSuccessOutcome out = false) :
    (authenticate st u p out).result = .null ∧ (authenticate st u p out).state = st := by
  cases out with
  | fault => exact ⟨rfl, rfl⟩
  | response status body text =>
      cases body with
      | none => exact ⟨rfl, rfl⟩
      | some data =>
          by_cases hs : status = 200
          · subst hs
            cases data <;> try exact ⟨rfl, rfl⟩
            rename_i fs
            simp only [authSuccessOutcome, beq_self_eq_true, Bool.true_and] at h
            simp [authenticate, h]
          · simp [authenticate, hs]

theorem get_client_context_result_non200 (st : ClientState) (status : Nat)
    (body : Option Json) (text : String) (h : status ≠ 200) :
    get_client_context st (.response status body text) =
      ⟨some ⟨"GET", st.base_url ++ "/cliente/context", st.headers, [], none⟩,
       .null, st⟩ := by
  simp [get_client_context, h]

theorem get_client_context_result_malformed (st : ClientState) (status : Nat)
    (text : String) :
    (get_client_context st (.response status none text)).result = .null := by
  simp only [get_client_context]
  split <;> rfl

theorem finishSimple_null (req : Request) (st : ClientState) (out : HttpOutcome)
    (h : nullOutcome out = true) : (finishSimple req st out).result = .null := by
  cases out with
  | fault => rfl
  | response status body text =>
      simp only [nullOutcome, Bool.or_eq_true, Bool.not_eq_eq_eq_not, Bool.not_true,
        beq_eq_false_iff_ne, ne_eq, Option.isNone_iff_eq_none] at h
      rcases h with h | h
      · exact finishSimple_non200 req st status body text h
      · subst h
        exact finishSimple_malformed ..

theorem authenticate_null (st : ClientState) (u p : String) (out : HttpOutcome)
    (h : nullOutcome out = true) : (authenticate st u p out).result = .null := by
  have hfail : authSuccessOutcome out = false := by
    cases out with
    | fault => rfl
    | response status body text =>
        simp only [nullOutcome, Bool.or_eq_true, Bool.not_eq_eq_eq_not, Bool.not_true,
          beq_eq_false_iff_ne, ne_eq, Option.isNone_iff_eq_none] at h
        rcases h with h | h
        · simp [authSuccessOutcome, h]
        · subst h
          simp [authSuccessOutcome]
  exact (authenticate_fail st u p out hfail).1

theorem get_client_context_null (st : ClientState) (out : HttpOutcome)
    (h : nullOutcome out = true) : (get_client_context st out).result = .null := by
  cases out with
  | fault => rfl
  | response status body text =>
      simp only [nullOutcome, Bool.or_eq_true, Bool.not_eq_eq_eq_not, Bool.not_true,
        beq_eq_false_iff_ne, ne_eq, Option.isNone_iff_eq_none] at h
      rcases h with h | h
      · rw [get_client_context_result_non200 st status body text h]
      · subst h
        exact get_client_context_result_malformed ..

theorem get_last_status_null (st : ClientState) (out : HttpOutcome)
    (h : nullOutcome out = true) : (get_last_status st out).result = .null := by
  simp only [get_last_status]
  split
  · rfl
  · exact finishSimple_null _ _ _ h

theorem get_last_report_null (st : ClientState) (out : HttpOutcome)
    (h : nullOutcome out = true) : (get_last_report st out).result = .null := by
  simp only [get_last_report]
  split
  · rfl
  · exact finishSimple_null _ _ _ h

theorem get_generation_day_null (st : ClientState) (d : String) (up : Bool)
    (out : HttpOutcome) (h : nullOutcome out = true) :
    (get_generation_day st d up out).result = .null := by
  simp only [get_generation_day]
  split
  · rfl
  · exact finishSimple_null _ _ _ h

theorem get_generation_period_null (st : ClientState) (s e per : String)
    (um up : Bool) (out : HttpOutcome) (h : nullOutcome out = true) :
    (get_generation_period st s e per um up out).result = .null := by
  simp only [get_generation_period]
  split
  · rfl
  · exact finishSimple_null _ _ _ h

theorem mark_all_notifications_seen_null (st : ClientState) (status : Nat)
    (body : Option Json) (text : String) (h : status ≠ 200) :
    (mark_all_notifications_seen st (.response status body text)).result = .null := by
  simp [mark_all_notifications_seen, h]

theorem runOp_base_url (st : ClientState) (c : OpCall) :
    (runOp st c).state.base_url = st.base_url := by
  cases c with
  | authCall u p out => exact (authenticate_frame st u p out).1
  | contextCall out => exact (get_client_context_frame st out).1
  | _ => rw [runOp_state_frame] <;> rfl

/-- C4: whenever `plantId` is unset (Python `None`), `get_last_status`,
`get_generation_day` and `get_generation_period` return the precondition
failure (`None`) at once, with no request issued and no state change;
likewise `get_last_report` when `plantUuid` is unset; and in particular
after `get_client_context` succeeds on a fresh client with an empty
plant list, a subsequent `get_last_status` yields exactly this local
precondition failure. -/
theorem precondition_failure_local (st : ClientState) (out out2 : HttpOutcome)
    (d s e per : String) (um up : Bool) :
    (st.usina_id = Json.null →
       get_last_status st out = ⟨none, Json.null, st⟩ ∧
       get_generation_day st d up out = ⟨none, Json.null, st⟩ ∧
       get_generation_period st s e per um up out = ⟨none, Json.null, st⟩) ∧
    (st.usina_uuid = Json.null →
       get_last_report st out = ⟨none, Json.null, st⟩) ∧
    (get_last_status
        (get_client_context initState
          (.response 200 (some (Json.obj [("usinas", Json.arr [])])) "")).state out2 =
      ⟨none, Json.null,
       (get_client_context initState
          (.response 200 (some (Json.obj [("usinas", Json.arr [])])) "")).state⟩) := by
  refine ⟨fun hid => ?_, fun huuid => ?_, ?_⟩
  · have h : st.usina_id.truthy = false := by rw [hid]; rfl
    exact ⟨get_last_status_noreq st out h, get_generation_day_noreq st d up out h,
           get_generation_period_noreq st s e per um up out h⟩
  · have h : st.usina_uuid.truthy = false := by rw [huuid]; rfl
    exact get_last_report_noreq st out h
  · exact get_last_status_noreq _ out2 rfl

/-- C4 witness: on the fresh client (`plantId` unset), `get_last_status`
fails locally with no request. -/
theorem precondition_failure_local_witness :
    initState.usina_id = Json.null ∧
    get_last_status initState .fault = ⟨none, Json.null, initState⟩ :=
  ⟨rfl,
   ((precondition_failure_local initState .fault .fault "" "" "" "" false false).1 rfl).1⟩

/-- C10: the identifier guards test Python truthiness, not presence: with
`plantId = 0` the three id-guarded operations fail locally exactly as if
it were unset, and with `plantUuid = ""` so does `get_last_report`; and a
successful `get_client_context` whose first plant entry carries `id: 0`
and `uuid: ""` does put the client in such a state. -/
theorem truthiness_guards (st : ClientState) (out : HttpOutcome)
    (d s e per : String) (um up : Bool) :
    (st.usina_id = Json.num 0 →
       get_last_status st out = ⟨none, Json.null, st⟩ ∧
       get_generation_day st d up out = ⟨none, Json.null, st⟩ ∧
       get_generation_period st s e per um up out = ⟨none, Json.null, st⟩) ∧
    (st.usina_uuid = Json.str "" →
       get_last_report st out = ⟨none, Json.null, st⟩) ∧
    ((get_client_context initState
        (.response 200
          (some (Json.obj [("usinas",
            Json.arr [Json.obj [("id", Json.num 0), ("uuid", Json.str "")]])])) "")).result =
       Json.obj [("usinas",
         Json.arr [Json.obj [("id", Json.num 0), ("uuid", Json.str "")]])] ∧
     (get_client_context initState
        (.response 200
          (some (Json.obj [("usinas",
            Json.arr [Json.obj [("id", Json.num 0), ("uuid", Json.str "")]])])) "")).state.usina_id =
       Json.num 0 ∧
     (get_client_context initState
        (.response 200
          (some (Json.obj [("usinas",
            Json.arr [Json.obj [("id", Json.num 0), ("uuid", Json.str "")]])])) "")).state.usina_uuid =
       Json.str "") := by
  refine ⟨fun hid => ?_, fun huuid => ?_, rfl, rfl, rfl⟩
  · have h : st.usina_id.truthy = false := by rw [hid]; rfl
    exact ⟨get_last_status_noreq st out h, get_generation_day_noreq st d up out h,
           get_generation_period_noreq st s e per um up out h⟩
  · have h : st.usina_uuid.truthy = false := by rw [huuid]; rfl
    exact get_last_report_noreq st out h

/-- C10 witness: a client whose `plantId` is the integer 0 gets the local
precondition failure from `get_last_status`. -/
theorem truthiness_guards_witness :
    ({ initState with usina_id := Json.num 0 } : ClientState).usina_id = Json.num 0 ∧
    get_last_status { initState with usina_id := Json.num 0 } .fault =
      ⟨none, Json.null, { initState with usina_id := Json.num 0 }⟩ :=
  ⟨rfl,
   ((truthiness_guards { initState with usina_id := Json.num 0 } .fault
       "" "" "" "" false false).1 rfl).1⟩

/-- C5: on every outcome other than a 200 carrying a `token` field (a 200
without `token`, any non-200 with or without an `error` field, a
transport fault, an unparseable body), `authenticate` returns the failure
sentinel `None` and leaves the whole session state — in particular the
header set, so also any `Authorization` entry — unchanged. -/
theorem authenticate_failure_no_mutation (st : ClientState) (u p : String)
    (out : HttpOutcome) (h : authSuccessOutcome out = false) :
    (authenticate st u p out).result = Json.null ∧
    (authenticate st u p out).state = st :=
  authenticate_fail st u p out h

/-- C5 witness: a 401 with an error-bearing body yields `None` and leaves
the fresh client's state untouched. -/
theorem authenticate_failure_no_mutation_witness :
    authSuccessOutcome (.response 401 (some (Json.obj [("error", Json.str "bad credentials")])) "") = false ∧
    (authenticate initState "u" "p"
       (.response 401 (some (Json.obj [("error", Json.str "bad credentials")])) "")).result = Json.null ∧
    (authenticate initState "u" "p"
       (.response 401 (some (Json.obj [("error", Json.str "bad credentials")])) "")).state = initState :=
  ⟨rfl,
   (authenticate_failure_no_mutation initState "u" "p"
      (.response 401 (some (Json.obj [("error", Json.str "bad credentials")])) "") rfl).1,
   (authenticate_failure_no_mutation initState "u" "p"
      (.response 401 (some (Json.obj [("error", Json.str "bad credentials")])) "") rfl).2⟩

theorem pyLower_pyStr_bool (b : Bool) :
    pyLower (pyStr (.bool b)) = (if b then "true" else "false") := by
  cases b <;> rfl

/-- C8: `get_generation_day` and `get_generation_period` place each
boolean flag in the query parameters as the `Json.str` literal `"true"`
or `"false"` (Python `str(flag).lower()`), never as a `Json.bool`. -/
theorem boolean_flags_serialized_as_strings (st : ClientState)
    (d s e per : String) (um up : Bool) (out : HttpOutcome)
    (h : st.usina_id.truthy = true) :
    (∃ rq, (get_generation_day st d up out).request = some rq ∧
       rq.params =
         [("usinaId", st.usina_id), ("day", Json.str d),
          ("unitePortals", Json.str (if up then "true" else "false"))]) ∧
    (∃ rq, (get_generation_period st s e per um up out).request = some rq ∧
       rq.params =
         [("usinaId", st.usina_id), ("start", Json.str s), ("end", Json.str e),
          ("uniteMonths", Json.str (if um then "true" else "false")),
          ("unitePortals", Json.str (if up then "true" else "false")),
          ("period", Json.str per)]) := by
  constructor
  · exact ⟨_, get_generation_day_request st d up out h, by rw [pyLower_pyStr_bool]⟩
  · exact ⟨_, get_generation_period_request st s e per um up out h,
           by rw [pyLower_pyStr_bool, pyLower_pyStr_bool]⟩

/-- C8 witness: with `plantId = 7`, a `get_generation_day` call with the
flag set serializes it as the string literal `"true"`. -/
theorem boolean_flags_serialized_witness :
    ({ initState with usina_id := Json.num 7 } : ClientState).usina_id.truthy = true ∧
    (∃ rq, (get_generation_day { initState with usina_id := Json.num 7 }
              "2024-01-01" true .fault).request = some rq ∧
       rq.params =
         [("usinaId", Json.num 7), ("day", Json.str "2024-01-01"),
          ("unitePortals", Json.str (if true then "true" else "false"))]) :=
  ⟨rfl,
   (boolean_flags_serialized_as_strings { initState with usina_id := Json.num 7 }
      "2024-01-01" "" "" "" false true .fault rfl).1⟩

/-- C3: every operation converts a transport fault, and (wherever the
operation parses a body at all, i.e. every operation except
`mark_all_notifications_seen`) an unparseable JSON body, into the very
sentinel `None` it returns for a non-200 API response; operations being
total functions of the outcome, no exception ever reaches the caller. -/
theorem faults_collapse_to_sentinel (st : ClientState) (c : OpCall) :
    (c.outcome = .fault → (runOp st c).result = Json.null) ∧
    (∀ status body text, c.outcome = .response status body text → status ≠ 200 →
       (runOp st c).result = Json.null) ∧
    (∀ status text, c.isMarkSeen = false → c.outcome = .response status none text →
       (runOp st c).result = Json.null) := by
  have hnull : ∀ status : Nat, ∀ body : Option Json, ∀ text : String, status ≠ 200 →
      nullOutcome (.response status body text) = true := by
    intro status body text hne
    simp [nullOutcome, hne]
  have hmal : ∀ status : Nat, ∀ text : String,
      nullOutcome (.response status none text) = true := by
    intro status text
    simp [nullOutcome]
  cases c with
  | authCall u p out =>
      refine ⟨fun hf => ?_, fun status body text hr hne => ?_, fun status text _ hr => ?_⟩
      · rw [show out = HttpOutcome.fault from hf]; rfl
      · rw [show out = HttpOutcome.response status body text from hr]
        exact authenticate_null st u p _ (hnull status body text hne)
      · rw [show out = HttpOutcome.response status none text from hr]
        exact authenticate_null st u p _ (hmal status text)
  | contextCall out =>
      refine ⟨fun hf => ?_, fun status body text hr hne => ?_, fun status text _ hr => ?_⟩
      · rw [show out = HttpOutcome.fault from hf]; rfl
      · rw [show out = HttpOutcome.response status body text from hr]
        exact get_client_context_null st _ (hnull status body text hne)
      · rw [show out = HttpOutcome.response status none text from hr]
        exact get_client_context_null st _ (hmal status text)
  | lastStatusCall out =>
      refine ⟨fun hf => ?_, fun status body text hr hne => ?_, fun status text _ hr => ?_⟩
      · rw [show out = HttpOutcome.fault from hf]
        exact get_last_status_null st _ rfl
      · rw [show out = HttpOutcome.response status body text from hr]
        exact get_last_status_null st _ (hnull status body text hne)
      · rw [show out = HttpOutcome.response status none text from hr]
        exact get_last_status_null st _ (hmal status text)
  | lastReportCall out =>
      refine ⟨fun hf => ?_, fun status body text hr hne => ?_, fun status text _ hr => ?_⟩
      · rw [show out = HttpOutcome.fault from hf]
        exact get_last_report_null st _ rfl
      · rw [show out = HttpOutcome.response status body text from hr]
        exact get_last_report_null st _ (hnull status body text hne)
      · rw [show out = HttpOutcome.response status none text from hr]
        exact get_last_report_null st _ (hmal status text)
  | economizedCall out =>
      refine ⟨fun hf => ?_, fun status body text hr hne => ?_, fun status text _ hr => ?_⟩
      · rw [show out = HttpOutcome.fault from hf]
        exact finishSimple_null _ st _ rfl
      · rw [show out = HttpOutcome.response status body text from hr]
        exact finishSimple_null _ st _ (hnull status body text hne)
      · rw [show out = HttpOutcome.response status none text from hr]
        exact finishSimple_null _ st _ (hmal status text)
  | generationDayCall d up out =>
      refine ⟨fun hf => ?_, fun status body text hr hne => ?_, fun status text _ hr => ?_⟩
      · rw [show out = HttpOutcome.fault from hf]
        exact get_generation_day_null st d up _ rfl
      · rw [show out = HttpOutcome.response status body text from hr]
        exact get_generation_day_null st d up _ (hnull status body text hne)
      · rw [show out = HttpOutcome.response status none text from hr]
        exact get_generation_day_null st d up _ (hmal status text)
  | generationPeriodCall s e per um up out =>
      refine ⟨fun hf => ?_, fun status body text hr hne => ?_, fun status text _ hr => ?_⟩
      · rw [show out = HttpOutcome.fault from hf]
        exact get_generation_period_null st s e per um up _ rfl
      · rw [show out = HttpOutcome.response status body text from hr]
        exact get_generation_period_null st s e per um up _ (hnull status body text hne)
      · rw [show out = HttpOutcome.response status none text from hr]
        exact get_generation_period_null st s e per um up _ (hmal status text)
  | unidadeSumsCall out =>
      refine ⟨fun hf => ?_, fun status body text hr hne => ?_, fun status text _ hr => ?_⟩
      · rw [show out = HttpOutcome.fault from hf]
        exact finishSimple_null _ st _ rfl
      · rw [show out = HttpOutcome.response status body text from hr]
        exact finishSimple_null _ st _ (hnull status body text hne)
      · rw [show out = HttpOutcome.response status none text from hr]
        exact finishSimple_null _ st _ (hmal status text)
  | unidadeCreditCall out =>
      refine ⟨fun hf => ?_, fun status body text hr hne => ?_, fun status text _ hr => ?_⟩
      · rw [show out = HttpOutcome.fault from hf]
        exact finishSimple_null _ st _ rfl
      · rw [show out = HttpOutcome.response status body text from hr]
        exact finishSimple_null _ st _ (hnull status body text hne)
      · rw [show out = HttpOutcome.response status none text from hr]
        exact finishSimple_null _ st _ (hmal status text)
  | unidadeByPeriodCall s e out =>
      refine ⟨fun hf => ?_, fun status body text hr hne => ?_, fun status text _ hr => ?_⟩
      · rw [show out = HttpOutcome.fault from hf]
        exact finishSimple_null _ st _ rfl
      · rw [show out = HttpOutcome.response status body text from hr]
        exact finishSimple_null _ st _ (hnull status body text hne)
      · rw [show out = HttpOutcome.response status none text from hr]
        exact finishSimple_null _ st _ (hmal status text)
  | notificationsCall pg out =>
      refine ⟨fun hf => ?_, fun status body text hr hne => ?_, fun status text _ hr => ?_⟩
      · rw [show out = HttpOutcome.fault from hf]
        exact finishSimple_null _ st _ rfl
      · rw [show out = HttpOutcome.response status body text from hr]
        exact finishSimple_null _ st _ (hnull status body text hne)
      · rw [show out = HttpOutcome.response status none text from hr]
        exact finishSimple_null _ st _ (hmal status text)
  | markSeenCall out =>
      refine ⟨fun hf => ?_, fun status body text hr hne => ?_, fun status text hm _ => ?_⟩
      · rw [show out = HttpOutcome.fault from hf]; rfl
      · rw [show out = HttpOutcome.response status body text from hr]
        exact mark_all_notifications_seen_null st status body text hne
      · simp [OpCall.isMarkSeen] at hm

/-- C3 witness: a transport fault during `get_economized` yields the
sentinel `None`. -/
theorem faults_collapse_to_sentinel_witness :
    (OpCall.economizedCall HttpOutcome.fault).outcome = HttpOutcome.fault ∧
    (runOp initState (.economizedCall .fault)).result = Json.null :=
  ⟨rfl, (faults_collapse_to_sentinel initState (.economizedCall .fault)).1 rfl⟩

/-- C9: every operation attaches exactly the session's current header set
to its request (the source passes a shallow copy, so per-call use never
mutates the stored headers); every operation other than `authenticate`
and `get_client_context` leaves the whole session state identical on
every outcome; `get_client_context` can touch only the plant identifiers,
never headers or base URL; and two consecutive
`mark_all_notifications_seen` calls leave no residual session mutation. -/
theorem operations_frame (st : ClientState) (c : OpCall) :
    (∀ rq, (runOp st c).request = some rq → rq.headers = st.headers) ∧
    (c.isAuth = false → c.isContext = false → (runOp st c).state = st) ∧
    (c.isAuth = false →
       (runOp st c).state.headers = st.headers ∧
       (runOp st c).state.base_url = st.base_url) ∧
    (∀ out1 out2,
       (runOp (runOp st (.markSeenCall out1)).state (.markSeenCall out2)).state = st) := by
  refine ⟨fun rq h => runOp_request_headers st c rq h,
          fun ha hc => runOp_state_frame st c ha hc,
          fun ha => ⟨runOp_headers st c ha, runOp_base_url st c⟩,
          fun out1 out2 => ?_⟩
  have h1 : (runOp st (.markSeenCall out1)).state = st :=
    runOp_state_frame st _ rfl rfl
  have h2 := runOp_state_frame (runOp st (.markSeenCall out1)).state
    (.markSeenCall out2) rfl rfl
  rw [h2, h1]

/-- C9 witness: a `mark_all_notifications_seen` call on the fresh client
leaves the session state untouched. -/
theorem operations_frame_witness :
    (OpCall.markSeenCall (.response 200 none "")).isAuth = false ∧
    (OpCall.markSeenCall (.response 200 none "")).isContext = false ∧
    (runOp initState (.markSeenCall (.response 200 none ""))).state = initState :=
  ⟨rfl, rfl,
   (operations_frame initState (.markSeenCall (.response 200 none ""))).2.1 rfl rfl⟩

/-- C1: on a 200 response whose dict body carries a `token` entry with
value `t`, `authenticate` returns `True`, the session header set
afterwards maps `Authorization` to `"Bearer " ++ pyStr t` (for a string
token, `"Bearer " ++ t`), and every request issued by any operation after
any further authenticate-free call sequence on the same instance still
carries exactly that entry. -/
theorem authenticate_success_bearer (st : ClientState) (u p text : String)
    (fs : List (String × Json)) (t : Json)
    (htok : lookupKey fs "token" = some t) :
    (authenticate st u p (.response 200 (some (.obj fs)) text)).result = Json.bool true ∧
    dictGet (authenticate st u p (.response 200 (some (.obj fs)) text)).state.headers
        "Authorization" = some ("Bearer " ++ pyStr t) ∧
    (∀ calls : List OpCall, (∀ c ∈ calls, c.isAuth = false) →
       ∀ c : OpCall, ∀ rq : Request,
         (runOp (runTrace (authenticate st u p (.response 200 (some (.obj fs)) text)).state calls)
             c).request = some rq →
         dictGet rq.headers "Authorization" = some ("Bearer " ++ pyStr t)) := by
  have hsome : (lookupKey fs "token").isSome = true := by rw [htok]; rfl
  have hget : getField fs "token" = t := by rw [getField, htok]; rfl
  have hstate : (authenticate st u p (.response 200 (some (.obj fs)) text)).state.headers =
      setHeader st.headers "Authorization" ("Bearer " ++ pyStr t) := by
    simp [authenticate, hsome, hget]
  refine ⟨by simp [authenticate, hsome], ?_, ?_⟩
  · rw [hstate, dictGet_setHeader]
  · intro calls hcalls c rq hrq
    have h1 := runTrace_headers calls
      (authenticate st u p (.response 200 (some (.obj fs)) text)).state hcalls
    have h2 := runOp_request_headers _ c rq hrq
    rw [h2, h1, hstate, dictGet_setHeader]

/-- C1 witness: authenticating against a mocked `{token: "abc"}` at 200
returns `True` and stores `Authorization: Bearer abc`. -/
theorem authenticate_success_bearer_witness :
    lookupKey [("token", Json.str "abc")] "token" = some (Json.str "abc") ∧
    (authenticate initState "u" "p"
       (.response 200 (some (.obj [("token", Json.str "abc")])) "")).result = Json.bool true ∧
    dictGet (authenticate initState "u" "p"
       (.response 200 (some (.obj [("token", Json.str "abc")])) "")).state.headers
       "Authorization" = some ("Bearer " ++ pyStr (Json.str "abc")) :=
  ⟨rfl,
   (authenticate_success_bearer initState "u" "p" "" [("token", Json.str "abc")]
      (Json.str "abc") rfl).1,
   (authenticate_success_bearer initState "u" "p" "" [("token", Json.str "abc")]
      (Json.str "abc") rfl).2.1⟩

/-- C2 counterexample: a 200 response whose parsed JSON body is an empty
array (so not a dict, with no `usinas` list present) makes
`get_client_context` return `None`, not the parsed payload — refuting the
claim's universal quantification over all 200 responses. -/
theorem get_client_context_200_counterexample :
    (get_client_context initState (.response 200 (some (Json.arr [])) "")).result
      = Json.null ∧
    Json.null ≠ Json.arr [] :=
  ⟨rfl, fun h => Json.noConfusion h⟩

theorem context_object_cases (st : ClientState) (text : String)
    (fs : List (String × Json)) :
    (((lookupKey fs "usinas").getD (Json.arr [])).truthy = false →
       get_client_context st (.response 200 (some (Json.obj fs)) text) =
         ⟨some ⟨"GET", st.base_url ++ "/cliente/context", st.headers, [], none⟩,
          Json.obj fs, st⟩) ∧
    (∀ efs rest,
       (lookupKey fs "usinas").getD (Json.arr []) = Json.arr (Json.obj efs :: rest) →
       get_client_context st (.response 200 (some (Json.obj fs)) text) =
         ⟨some ⟨"GET", st.base_url ++ "/cliente/context", st.headers, [], none⟩,
          Json.obj fs,
          { st with usina_id := getField efs "id", usina_uuid := getField efs "uuid" }⟩) := by
  constructor
  · intro h
    simp [get_client_context, h]
  · intro efs rest h
    simp only [get_client_context]
    rw [h]
    simp [Json.truthy]

/-- C2 amended: for a 200 response whose parsed body is a JSON object,
`get_client_context` returns the full payload; when its `usinas` value is
falsy (absent, empty list, or otherwise falsy) both identifiers are left
unchanged and no failure is signalled, and when it is a list whose first
entry is an object the identifiers are set from that entry 0 only,
regardless of list length. -/
theorem get_client_context_object_body (st : ClientState) (text : String)
    (fs : List (String × Json)) :
    (((lookupKey fs "usinas").getD (Json.arr [])).truthy = false →
       get_client_context st (.response 200 (some (Json.obj fs)) text) =
         ⟨some ⟨"GET", st.base_url ++ "/cliente/context", st.headers, [], none⟩,
          Json.obj fs, st⟩) ∧
    (∀ efs rest,
       (lookupKey fs "usinas").getD (Json.arr []) = Json.arr (Json.obj efs :: rest) →
       get_client_context st (.response 200 (some (Json.obj fs)) text) =
         ⟨some ⟨"GET", st.base_url ++ "/cliente/context", st.headers, [], none⟩,
          Json.obj fs,
          { st with usina_id := getField efs "id", usina_uuid := getField efs "uuid" }⟩) :=
  context_object_cases st text fs

/-- C2 witness: with `usinas` absent the payload comes back untouched and
the identifiers stay unset; with a two-entry plant list the identifiers
come from entry 0 only. -/
theorem get_client_context_object_body_witness :
    ((lookupKey ([("bandeira", Json.str "verde")]) "usinas").getD (Json.arr [])).truthy = false ∧
    get_client_context initState
        (.response 200 (some (Json.obj [("bandeira", Json.str "verde")])) "") =
      ⟨some ⟨"GET", initState.base_url ++ "/cliente/context", initState.headers, [], none⟩,
       Json.obj [("bandeira", Json.str "verde")], initState⟩ ∧
    (lookupKey [("usinas",
        Json.arr [Json.obj [("id", Json.num 7), ("uuid", Json.str "u-1")],
                  Json.obj [("id", Json.num 8), ("uuid", Json.str "u-2")]])] "usinas").getD
        (Json.arr []) =
      Json.arr (Json.obj [("id", Json.num 7), ("uuid", Json.str "u-1")] ::
                [Json.obj [("id", Json.num 8), ("uuid", Json.str "u-2")]]) ∧
    get_client_context initState
        (.response 200 (some (Json.obj [("usinas",
          Json.arr [Json.obj [("id", Json.num 7), ("uuid", Json.str "u-1")],
                    Json.obj [("id", Json.num 8), ("uuid", Json.str "u-2")]])])) "") =
      ⟨some ⟨"GET", initState.base_url ++ "/cliente/context", initState.headers, [], none⟩,
       Json.obj [("usinas",
         Json.arr [Json.obj [("id", Json.num 7), ("uuid", Json.str "u-1")],
                   Json.obj [("id", Json.num 8), ("uuid", Json.str "u-2")]])],
       { initState with
           usina_id := getField [("id", Json.num 7), ("uuid", Json.str "u-1")] "id",
           usina_uuid := getField [("id", Json.num 7), ("uuid", Json.str "u-1")] "uuid" }⟩ :=
  ⟨rfl,
   (get_client_context_object_body initState "" [("bandeira", Json.str "verde")]).1 rfl,
   rfl,
   (get_client_context_object_body initState "" [("usinas",
      Json.arr [Json.obj [("id", Json.num 7), ("uuid", Json.str "u-1")],
                Json.obj [("id", Json.num 8), ("uuid", Json.str "u-2")]])]).2
     [("id", Json.num 7), ("uuid", Json.str "u-1")]
     [Json.obj [("id", Json.num 8), ("uuid", Json.str "u-2")]] rfl⟩

/-- C6 counterexample: a successful `get_client_context` whose first
plant entry has a `uuid` but no `id` key leaves `plantId` unset
(Python `None`) while setting `plantUuid` — a reachable state with
exactly one identifier set, refuting "either both unset or both set". -/
theorem plant_ids_counterexample :
    (get_client_context initState
       (.response 200 (some (Json.obj [("usinas",
         Json.arr [Json.obj [("uuid", Json.str "u-1")]])])) "")).result =
      Json.obj [("usinas", Json.arr [Json.obj [("uuid", Json.str "u-1")]])] ∧
    (get_client_context initState
       (.response 200 (some (Json.obj [("usinas",
         Json.arr [Json.obj [("uuid", Json.str "u-1")]])])) "")).state.usina_id =
      Json.null ∧
    (get_client_context initState
       (.response 200 (some (Json.obj [("usinas",
         Json.arr [Json.obj [("uuid", Json.str "u-1")]])])) "")).state.usina_uuid =
      Json.str "u-1" ∧
    Json.str "u-1" ≠ Json.null :=
  ⟨rfl, rfl, rfl, fun h => Json.noConfusion h⟩

/-- C6 amended: no operation other than `get_client_context` ever changes
`plantId` or `plantUuid`, and `get_client_context` changes them only by
assigning both together from the first entry of the 200 response's
truthy `usinas` list — `plantId` from that entry's `id` field and
`plantUuid` from its `uuid` field, each individually `None` (hence
unset) when the entry lacks that field. -/
theorem plant_ids_assigned_together (st : ClientState) (c : OpCall) :
    ((runOp st c).state.usina_id = st.usina_id ∧
     (runOp st c).state.usina_uuid = st.usina_uuid) ∨
    (∃ fs text efs rest,
       c = OpCall.contextCall (.response 200 (some (Json.obj fs)) text) ∧
       (lookupKey fs "usinas").getD (Json.arr []) = Json.arr (Json.obj efs :: rest) ∧
       (runOp st c).state.usina_id = getField efs "id" ∧
       (runOp st c).state.usina_uuid = getField efs "uuid") := by
  cases c with
  | authCall u p out =>
      exact Or.inl ⟨(authenticate_frame st u p out).2.1,
                    (authenticate_frame st u p out).2.2⟩
  | contextCall out =>
      cases out with
      | fault => exact Or.inl ⟨rfl, rfl⟩
      | response status body text =>
          by_cases hs : status = 200
          · subst hs
            cases body with
            | none => exact Or.inl ⟨rfl, rfl⟩
            | some ctx =>
                cases ctx <;> try exact Or.inl ⟨rfl, rfl⟩
                rename_i fs
                rcases hu : (lookupKey fs "usinas").getD (Json.arr []) with
                  _ | b | n | s | elems | ofs
                · exact Or.inl ⟨by simp [runOp, get_client_context, hu, Json.truthy],
                                by simp [runOp, get_client_context, hu, Json.truthy]⟩
                · refine Or.inl ⟨?_, ?_⟩ <;>
                    simp [runOp, get_client_context, hu, Json.truthy, apply_ite OpRun.state]
                · refine Or.inl ⟨?_, ?_⟩ <;>
                    simp [runOp, get_client_context, hu, Json.truthy, apply_ite OpRun.state]
                · refine Or.inl ⟨?_, ?_⟩ <;>
                    simp [runOp, get_client_context, hu, Json.truthy, apply_ite OpRun.state]
                · cases elems with
                  | nil =>
                      refine Or.inl ⟨?_, ?_⟩ <;>
                        simp [runOp, get_client_context, hu, Json.truthy, apply_ite OpRun.state]
                  | cons first rest =>
                      cases first with
                      | obj efs =>
                          refine Or.inr ⟨fs, text, efs, rest, rfl, hu, ?_, ?_⟩ <;>
                            simp [runOp, get_client_context, hu, Json.truthy]
                      | null =>
                          refine Or.inl ⟨?_, ?_⟩ <;>
                            simp [runOp, get_client_context, hu, Json.truthy]
                      | bool b =>
                          refine Or.inl ⟨?_, ?_⟩ <;>
                            simp [runOp, get_client_context, hu, Json.truthy]
                      | num n =>
                          refine Or.inl ⟨?_, ?_⟩ <;>
                            simp [runOp, get_client_context, hu, Json.truthy]
                      | str s =>
                          refine Or.inl ⟨?_, ?_⟩ <;>
                            simp [runOp, get_client_context, hu, Json.truthy]
                      | arr inner =>
                          refine Or.inl ⟨?_, ?_⟩ <;>
                            simp [runOp, get_client_context, hu, Json.truthy]
                · refine Or.inl ⟨?_, ?_⟩ <;>
                    simp [runOp, get_client_context, hu, Json.truthy, apply_ite OpRun.state]
          · have h := get_client_context_result_non200 st status body text hs
            exact Or.inl ⟨by rw [runOp, h], by rw [runOp, h]⟩
  | lastStatusCall out =>
      have h := runOp_state_frame st (.lastStatusCall out) rfl rfl
      exact Or.inl ⟨by rw [h], by rw [h]⟩
  | lastReportCall out =>
      have h := runOp_state_frame st (.lastReportCall out) rfl rfl
      exact Or.inl ⟨by rw [h], by rw [h]⟩
  | economizedCall out =>
      have h := runOp_state_frame st (.economizedCall out) rfl rfl
      exact Or.inl ⟨by rw [h], by rw [h]⟩
  | generationDayCall d up out =>
      have h := runOp_state_frame st (.generationDayCall d up out) rfl rfl
      exact Or.inl ⟨by rw [h], by rw [h]⟩
  | generationPeriodCall s e per um up out =>
      have h := runOp_state_frame st (.generationPeriodCall s e per um up out) rfl rfl
      exact Or.inl ⟨by rw [h], by rw [h]⟩
  | unidadeSumsCall out =>
      have h := runOp_state_frame st (.unidadeSumsCall out) rfl rfl
      exact Or.inl ⟨by rw [h], by rw [h]⟩
  | unidadeCreditCall out =>
      have h := runOp_state_frame st (.unidadeCreditCall out) rfl rfl
      exact Or.inl ⟨by rw [h], by rw [h]⟩
  | unidadeByPeriodCall s e out =>
      have h := runOp_state_frame st (.unidadeByPeriodCall s e out) rfl rfl
      exact Or.inl ⟨by rw [h], by rw [h]⟩
  | notificationsCall pg out =>
      have h := runOp_state_frame st (.notificationsCall pg out) rfl rfl
      exact Or.inl ⟨by rw [h], by rw [h]⟩
  | markSeenCall out =>
      have h := runOp_state_frame st (.markSeenCall out) rfl rfl
      exact Or.inl ⟨by rw [h], by rw [h]⟩

/-- C7 counterexample: `get_client_context` is listed among the
operations whose 200 response is returned verbatim, but a 200 whose
parsed JSON body is the number 7 makes it return `None`, not the parsed
body. -/
theorem ops_return_body_counterexample :
    (get_client_context initState (.response 200 (some (Json.num 7)) "")).result
      = Json.null ∧
    Json.null ≠ Json.num 7 :=
  ⟨rfl, fun h => Json.noConfusion h⟩

/-- C7 amended: for the nine operations other than `get_client_context`
(and other than `authenticate`/`mark_all_notifications_seen`, excluded by
the claim), a 200 response with parsed body `j` returns exactly `j`
(under the identifier precondition where one exists); `get_client_context`
returns the parsed body only when it is a JSON object whose `usinas`
value is falsy or a list with an object first entry. -/
theorem ops_200_return_parsed_body (st : ClientState) (j : Json)
    (text d s e per : String) (um up : Bool) (pg : Int) :
    (st.usina_id.truthy = true →
       (get_last_status st (.response 200 (some j) text)).result = j ∧
       (get_generation_day st d up (.response 200 (some j) text)).result = j ∧
       (get_generation_period st s e per um up (.response 200 (some j) text)).result = j) ∧
    (st.usina_uuid.truthy = true →
       (get_last_report st (.response 200 (some j) text)).result = j) ∧
    (get_economized st (.response 200 (some j) text)).result = j ∧
    (get_unidade_sums st (.response 200 (some j) text)).result = j ∧
    (get_unidade_credit st (.response 200 (some j) text)).result = j ∧
    (get_unidade_by_period st s e (.response 200 (some j) text)).result = j ∧
    (get_notifications st pg (.response 200 (some j) text)).result = j ∧
    (∀ fs, j = Json.obj fs →
       (((lookupKey fs "usinas").getD (Json.arr [])).truthy = false ∨
        (∃ efs rest, (lookupKey fs "usinas").getD (Json.arr [])
           = Json.arr (Json.obj efs :: rest))) →
       (get_client_context st (.response 200 (some j) text)).result = j) := by
  refine ⟨fun hid => ⟨?_, ?_, ?_⟩, fun huuid => ?_, finishSimple_200 .., finishSimple_200 ..,
          finishSimple_200 .., finishSimple_200 .., finishSimple_200 .., ?_⟩
  · simp only [get_last_status, hid, Bool.not_true, Bool.false_eq_true, if_false]
    exact finishSimple_200 ..
  · simp only [get_generation_day, hid, Bool.not_true, Bool.false_eq_true, if_false]
    exact finishSimple_200 ..
  · simp only [get_generation_period, hid, Bool.not_true, Bool.false_eq_true, if_false]
    exact finishSimple_200 ..
  · simp only [get_last_report, huuid, Bool.not_true, Bool.false_eq_true, if_false]
    exact finishSimple_200 ..
  · rintro fs rfl (h | ⟨efs, rest, h⟩)
    · rw [(context_object_cases st text fs).1 h]
    · rw [(context_object_cases st text fs).2 efs rest h]

/-- C7 witness: with both identifiers truthy, a 200 body comes back
verbatim from the guarded and unguarded operations alike. -/
theorem ops_200_return_parsed_body_witness :
    ({ initState with usina_id := Json.num 7, usina_uuid := Json.str "u-1" } :
        ClientState).usina_id.truthy = true ∧
    (get_last_status { initState with usina_id := Json.num 7, usina_uuid := Json.str "u-1" }
       (.response 200 (some (Json.obj [("power", Json.num 3)])) "")).result =
      Json.obj [("power", Json.num 3)] ∧
    (get_economized { initState with usina_id := Json.num 7, usina_uuid := Json.str "u-1" }
       (.response 200 (some (Json.obj [("power", Json.num 3)])) "")).result =
      Json.obj [("power", Json.num 3)] :=
  ⟨rfl,
   ((ops_200_return_parsed_body
       { initState with usina_id := Json.num 7, usina_uuid := Json.str "u-1" }
       (Json.obj [("power", Json.num 3)]) "" "" "" "" "" false false 0).1 rfl).1,
   (ops_200_return_parsed_body
       { initState with usina_id := Json.num 7, usina_uuid := Json.str "u-1" }
       (Json.obj [("power", Json.num 3)]) "" "" "" "" "" false false 0).2.2.1⟩
